import Mathlib

/-!
Verification of the cliodb Python client bindings (src/clio.py, src/logos.py)
against their natural-language specification.

The bindings are a thin ctypes layer over a native engine.  Pure pieces of the
Python code (the tagged-value decoder, the row callback, the status checks in
each method) are embedded as Lean functions; the native engine is an explicit
parameter (a record of response functions), so every client operation is a pure
function of the engine responses it actually reads.  Engine-side behaviour that
the repository keeps outside src/ (the encoder, the store semantics, the row
streaming guarantees) is modelled from the spec and marked as such.
-/

namespace Cliodb

/-- The Python values the binding can hand back to a caller: ints, strings, and
the implicit `None` that a Python function body returns when it falls through
(`pass`). -/
inductive PyValue where
  | pyInt (n : Int)
  | pyStr (s : String)
  | pyNone
deriving DecidableEq

/-- ValueTag enum, src/clio.py line 12: `(VAL_ENTITY, VAL_IDENT, VAL_STRING,
VAL_TIMESTAMP) = (0, 1, 2, 3)`.  The tag field is a c_int64. -/
def VAL_ENTITY : Int := 0

def VAL_IDENT : Int := 1

def VAL_STRING : Int := 2

def VAL_TIMESTAMP : Int := 3

/-- The CValue ctypes structure, src/clio.py lines 14-19: fields
`tag : c_int64`, `string_val : c_char_p`, `int_val : c_int64`. -/
structure CValue where
  tag : Int
  string_val : String
  int_val : Int
deriving DecidableEq

/-- `CValue.value`, src/clio.py lines 21-34.  The if/elif chain returns
`int_val` for tag 0, the decoded `string_val` for tags 1, 2, 3, and for any
other tag falls through the final `else: pass`, which in Python returns `None`
(the `raise Exception("Unsupported tag: ...")` is commented out in the
source). -/
def CValue.value (self : CValue) : PyValue :=
  if self.tag = VAL_ENTITY then .pyInt self.int_val
  else if self.tag = VAL_IDENT then .pyStr self.string_val
  else if self.tag = VAL_STRING then .pyStr self.string_val
  else if self.tag = VAL_TIMESTAMP then .pyStr self.string_val
  else .pyNone

/-- The four value kinds exchanged across the boundary (spec section 3).  The
entity payload is a 64-bit integer on the wire. -/
inductive Value where
  | entity (n : Int)
  | ident (s : String)
  | string (s : String)
  | timestamp (s : String)
deriving DecidableEq

/-- A Value whose payload fits the wire: the entity id must fit in a signed
64-bit field (the other kinds carry text and are always representable). -/
def Value.valid : Value → Bool
  | .entity n => decide (-(2 ^ 63) ≤ n) && decide (n < 2 ^ 63)
  | _ => true

/-- Reduction of an Int modulo 2^64 into the signed 64-bit range, as storing
into the c_int64 field `int_val` does. -/
def wrap64 (n : Int) : Int := (n + 2 ^ 63) % 2 ^ 64 - 2 ^ 63

/-- Modelled from the spec: the engine-side encoder of the tagged wire
representation (spec section 4.1: given a tag and a payload, produce the tagged
value; the encoder itself lives in the native engine, not under src/).  Each
kind is stored under its ValueTag with its payload in the field that tag
selects; the unused field holds a zero value. -/
def encode : Value → CValue
  | .entity n => ⟨VAL_ENTITY, "", wrap64 n⟩
  | .ident s => ⟨VAL_IDENT, s, 0⟩
  | .string s => ⟨VAL_STRING, s, 0⟩
  | .timestamp s => ⟨VAL_TIMESTAMP, s, 0⟩

/-- The Python in-memory representation of each value kind, exactly what
`CValue.value` is documented to produce: an int for Entity, a str for the three
text-carrying kinds. -/
def toPy : Value → PyValue
  | .entity n => .pyInt n
  | .ident s => .pyStr s
  | .string s => .pyStr s
  | .timestamp s => .pyStr s

/-- Claim C1 (code_bug evidence): decoding a CValue whose tag is not one of the
four known kinds does NOT fail — `CValue.value` silently returns Python `None`
(the raise in src/clio.py line 34 is commented out), at tag 5 and at tag -1. -/
theorem c1_unknown_tag_returns_none :
    CValue.value ⟨5, "payload", 99⟩ = PyValue.pyNone ∧
    CValue.value ⟨-1, "payload", 99⟩ = PyValue.pyNone :=
  ⟨rfl, rfl⟩

/-- Claim C7: for every valid value of each of the four kinds, decoding the
tagged wire representation produced by encoding it yields exactly the Python
value representing it: `(encode v).value = toPy v`. -/
theorem c7_roundtrip (v : Value) (hv : v.valid = true) :
    (encode v).value = toPy v := by
  cases v with
  | entity n =>
    simp only [Value.valid, Bool.and_eq_true, decide_eq_true_eq] at hv
    simp only [encode, CValue.value, toPy, VAL_ENTITY, VAL_IDENT, wrap64]
    norm_num
    omega
  | ident s => rfl
  | string s => rfl
  | timestamp s => rfl

/-- Witness for C7: the round trip evaluated at one concrete value of each of
the four kinds. -/
theorem c7_roundtrip_witness :
    (Value.valid (.entity 42) = true ∧
      (encode (.entity 42)).value = toPy (.entity 42)) ∧
    (Value.valid (.ident "db:ident") = true ∧
      (encode (.ident "db:ident")).value = toPy (.ident "db:ident")) ∧
    (Value.valid (.string "apple") = true ∧
      (encode (.string "apple")).value = toPy (.string "apple")) ∧
    (Value.valid (.timestamp "2017-01-01T00:00:00Z") = true ∧
      (encode (.timestamp "2017-01-01T00:00:00Z")).value
        = toPy (.timestamp "2017-01-01T00:00:00Z")) :=
  ⟨⟨by decide, c7_roundtrip (.entity 42) (by decide)⟩,
   ⟨rfl, c7_roundtrip (.ident "db:ident") rfl⟩,
   ⟨rfl, c7_roundtrip (.string "apple") rfl⟩,
   ⟨rfl, c7_roundtrip (.timestamp "2017-01-01T00:00:00Z") rfl⟩⟩

/-- Claim C9: the decode of a tagged value is determined solely by its tag and
reads only the payload field that tag selects.  Tag Entity returns the int
field as-is and is independent of the string field; tags Ident, String and
Timestamp return the string field and are independent of the int field. -/
theorem c9_tag_selects_payload :
    ∀ (s s2 : String) (n n2 : Int),
      CValue.value ⟨VAL_ENTITY, s, n⟩ = PyValue.pyInt n ∧
      CValue.value ⟨VAL_ENTITY, s, n⟩ = CValue.value ⟨VAL_ENTITY, s2, n⟩ ∧
      CValue.value ⟨VAL_IDENT, s, n⟩ = PyValue.pyStr s ∧
      CValue.value ⟨VAL_IDENT, s, n⟩ = CValue.value ⟨VAL_IDENT, s, n2⟩ ∧
      CValue.value ⟨VAL_STRING, s, n⟩ = PyValue.pyStr s ∧
      CValue.value ⟨VAL_STRING, s, n⟩ = CValue.value ⟨VAL_STRING, s, n2⟩ ∧
      CValue.value ⟨VAL_TIMESTAMP, s, n⟩ = PyValue.pyStr s ∧
      CValue.value ⟨VAL_TIMESTAMP, s, n⟩ = CValue.value ⟨VAL_TIMESTAMP, s, n2⟩ := by
  intro s s2 n n2
  exact ⟨rfl, rfl, rfl, rfl, rfl, rfl, rfl, rfl⟩

/-- Claim C10: decoding erases the kind tag for the text-carrying kinds: a
CValue tagged Ident and one tagged String (or Timestamp) with byte-equal
string payloads decode to equal plain strings, so a consumer of decoded rows
cannot tell them apart. -/
theorem c10_kind_erasure :
    ∀ (s : String) (n n2 n3 : Int),
      CValue.value ⟨VAL_IDENT, s, n⟩ = CValue.value ⟨VAL_STRING, s, n2⟩ ∧
      CValue.value ⟨VAL_TIMESTAMP, s, n3⟩ = CValue.value ⟨VAL_STRING, s, n2⟩ ∧
      CValue.value ⟨VAL_IDENT, s, n⟩ = PyValue.pyStr s := by
  intro s n n2 n3
  exact ⟨rfl, rfl, rfl⟩

/-- An opaque native handle (a c_void_p the engine wrote). -/
abbrev Handle := Nat

/-- One invocation of the row callback, src/clio.py line 91: the engine passes
a column count and a pointer into an array of CValues valid for the duration of
the call. -/
structure RowDelivery where
  num_cols : Nat
  vals : Nat → CValue

/-- What one native `query` call does: the sequence of row deliveries it makes
into the callback, and the status code the call returns (which src/clio.py
line 97 ignores). -/
structure QueryExec where
  deliveries : List RowDelivery
  status : Int

/-- The native engine as the client sees it: for every call site, the status
code and output values the native library would produce for given inputs.
Each client method below reads exactly the fields that the corresponding
Python method reads. -/
structure NativeEngine where
  connect_status : String → String → Int
  connect_handle : String → String → Handle
  get_db_status : Handle → Int
  get_db_handle : Handle → Handle
  transact_status : Handle → String → Int
  query_exec : Handle → String → QueryExec
  close_status : Handle → Int

/-- The ClioDB Python object state: its only attribute is `conn_ptr`
(src/clio.py line 60).  In particular there is no closed flag. -/
structure ClioConn where
  conn_ptr : Handle
deriving DecidableEq

/-- The Db wrapper, src/clio.py lines 46-48: its only attribute is
`db_ptr`. -/
structure Db where
  db_ptr : Handle
deriving DecidableEq

/-- The failures the binding can raise.  They model the `raise Exception(...)`
sites in src/clio.py; note there is no use-after-close failure anywhere in the
source. -/
inductive ClioError where
  | missingStoreUri
  | missingTxUri
  | dbOpenError
  | transactError
deriving DecidableEq

/-- `ClioDB.__init__`, src/clio.py lines 54-61: raise if `store_uri` is falsy,
raise if `tx_uri` is falsy, then call native connect.  The status code that
native connect returns is not bound or checked in the source, so the model
never reads `eng.connect_status`; the connection object is built from whatever
handle the engine wrote. -/
def ClioDB.init (eng : NativeEngine) (store_uri tx_uri : String) :
    Except ClioError ClioConn :=
  if store_uri = "" then .error .missingStoreUri
  else if tx_uri = "" then .error .missingTxUri
  else .ok ⟨eng.connect_handle store_uri tx_uri⟩

/-- `ClioDB.db`, src/clio.py lines 63-69: call native get_db on the stored
`conn_ptr`, raise when the status is negative, else wrap the written handle. -/
def ClioDB.db (eng : NativeEngine) (self : ClioConn) : Except ClioError Db :=
  if eng.get_db_status self.conn_ptr < 0 then .error .dbOpenError
  else .ok ⟨eng.get_db_handle self.conn_ptr⟩

/-- `ClioDB.transact`, src/clio.py lines 71-77: call native transact on the
stored `conn_ptr`, raise when the status is negative. -/
def ClioDB.transact (eng : NativeEngine) (self : ClioConn) (tx_string : String) :
    Except ClioError Unit :=
  if eng.transact_status self.conn_ptr tx_string < 0 then .error .transactError
  else .ok ()

/-- `ClioDB.close`, src/clio.py lines 79-80: call native close for its side
effect.  The return code is ignored and no client attribute is written, so the
client-visible object after close is the unchanged connection. -/
def ClioDB.close (_eng : NativeEngine) (self : ClioConn) : ClioConn :=
  self

/-- The Query Python object, src/clio.py lines 83-87: it stores only the query
text. -/
structure Query where
  query_string : String

/-- The row callback body, src/clio.py lines 91-95 (and `print_row`, lines
38-42): build a list of `num_cols` decoded values from the delivered array. -/
def row_cb (num_cols : Nat) (row_ptr : Nat → CValue) : List PyValue :=
  (List.range num_cols).map fun i => (row_ptr i).value

/-- The client-side accumulation that one native query call produces,
src/clio.py lines 89-98: one accumulated row per callback invocation.  The
status of the native call (`QueryExec.status`) is not read, exactly as the
source ignores the return value of `cliodb.query`, and the accumulated rows
are returned unconditionally. -/
def Query.run_exec (exec : QueryExec) : List (List PyValue) :=
  exec.deliveries.map fun d => row_cb d.num_cols d.vals

/-- `Query.run`, src/clio.py lines 89-98: submit the stored query text against
the db handle and return every accumulated row. -/
def Query.run (self : Query) (eng : NativeEngine) (db : Db) :
    List (List PyValue) :=
  Query.run_exec (eng.query_exec db.db_ptr self.query_string)

/-- An engine whose calls all succeed, used to evaluate the binding at
concrete inputs. -/
def engOk : NativeEngine :=
  ⟨fun _ _ => 0, fun _ _ => 5, fun _ => 0, fun _ => 7, fun _ _ => 0,
   fun _ _ => ⟨[⟨1, fun _ => ⟨VAL_ENTITY, "", 3⟩⟩], 0⟩, fun _ => 0⟩

/-- An engine whose calls all fail with status -1, used to evaluate the
binding when the native layer rejects an operation. -/
def engFail : NativeEngine :=
  ⟨fun _ _ => -1, fun _ _ => 42, fun _ => -1, fun _ => 0, fun _ _ => -1,
   fun _ _ => ⟨[], -1⟩, fun _ => -1⟩

/-- Claim C2 (code_bug evidence): after `close`, the connection object is
unchanged (no closed flag is set), and `db`, `transact` and a query all still
go through to the native engine and return its results — nothing fails with a
use-after-close error (no such error exists in the binding). -/
theorem c2_no_use_after_close_guard :
    ClioDB.close engOk ⟨5⟩ = (⟨5⟩ : ClioConn) ∧
    ClioDB.db engOk (ClioDB.close engOk ⟨5⟩) = Except.ok ⟨7⟩ ∧
    ClioDB.transact engOk (ClioDB.close engOk ⟨5⟩) "{age 30}" = Except.ok () ∧
    Query.run ⟨"find ?v where (?e age ?v)"⟩ engOk ⟨7⟩ = [[PyValue.pyInt 3]] :=
  ⟨rfl, rfl, rfl, rfl⟩

/-- Claim C3 counterexample: the native connect call reports failure (status
-1), yet `ClioDB.__init__` raises nothing and produces a connection — the
connect status code is not checked at the call site. -/
theorem c3_counterexample :
    engFail.connect_status "logos:mem://store" "logos:mem://log" = -1 ∧
    ClioDB.init engFail "logos:mem://store" "logos:mem://log"
      = Except.ok ⟨42⟩ :=
  ⟨rfl, rfl⟩

/-- Claim C3 as amended: the status codes of get_db and transact are checked
immediately at the call site and a negative code is exactly what makes the
call fail with a typed error; the status codes of connect, query and close are
ignored (the result of each is independent of that status), and no operation
is retried. -/
theorem c3_status_checking :
    ∀ (eng : NativeEngine) (conn : ClioConn) (tx_string : String),
      ((∃ e, ClioDB.db eng conn = Except.error e)
        ↔ eng.get_db_status conn.conn_ptr < 0) ∧
      ((∃ e, ClioDB.transact eng conn tx_string = Except.error e)
        ↔ eng.transact_status conn.conn_ptr tx_string < 0) ∧
      (∀ (cs cs2 : String → String → Int) ch gs gh ts qe cls s t,
        ClioDB.init ⟨cs, ch, gs, gh, ts, qe, cls⟩ s t
          = ClioDB.init ⟨cs2, ch, gs, gh, ts, qe, cls⟩ s t) ∧
      (∀ (ds : List RowDelivery) (st st2 : Int),
        Query.run_exec ⟨ds, st⟩ = Query.run_exec ⟨ds, st2⟩) ∧
      (∀ (eng2 : NativeEngine) (c2 : ClioConn),
        ClioDB.close eng2 c2 = ClioDB.close eng c2) := by
  intro eng conn tx_string
  refine ⟨?_, ?_, ?_, ?_, ?_⟩
  · by_cases h : eng.get_db_status conn.conn_ptr < 0 <;>
      simp [ClioDB.db, h]
  · by_cases h : eng.transact_status conn.conn_ptr tx_string < 0 <;>
      simp [ClioDB.transact, h]
  · intro cs cs2 ch gs gh ts qe cls s t
    rfl
  · intro ds st st2
    rfl
  · intro eng2 c2
    rfl

/-- Claim C4 (code_bug evidence): a query execution that delivers one row and
then terminates abnormally (negative status) still returns the accumulated
partial row list, with no error surfaced — the status is ignored. -/
theorem c4_partial_rows_returned :
    Query.run_exec ⟨[⟨1, fun _ => ⟨VAL_STRING, "apple", 0⟩⟩], -7⟩
      = [[PyValue.pyStr "apple"]] :=
  rfl

/-- Claim C8 counterexample: a malformed store URI is rejected by the native
engine (connect status -1), yet `ClioDB.__init__` raises no ConnectionError
and a connection object is produced, because the connect status is never
checked. -/
theorem c8_counterexample :
    engFail.connect_status "logos:bad uri" "logos:mem://log" = -1 ∧
    ClioDB.init engFail "logos:bad uri" "logos:mem://log" = Except.ok ⟨42⟩ :=
  ⟨rfl, rfl⟩

/-- Claim C8 as amended: `ClioDB.__init__` raises exactly when a required URI
is missing (empty/falsy) — and then no connection is produced — while for any
nonempty URIs it always produces a connection, whatever the native connect
status says about malformedness. -/
theorem c8_connect_uri_checks :
    ∀ (eng : NativeEngine) (store_uri tx_uri : String),
      (store_uri = "" →
        ClioDB.init eng store_uri tx_uri = Except.error .missingStoreUri) ∧
      (store_uri ≠ "" → tx_uri = "" →
        ClioDB.init eng store_uri tx_uri = Except.error .missingTxUri) ∧
      (store_uri ≠ "" → tx_uri ≠ "" →
        ClioDB.init eng store_uri tx_uri
          = Except.ok ⟨eng.connect_handle store_uri tx_uri⟩) := by
  intro eng store_uri tx_uri
  refine ⟨?_, ?_, ?_⟩
  · intro h
    simp [ClioDB.init, h]
  · intro h1 h2
    simp [ClioDB.init, h1, h2]
  · intro h1 h2
    simp [ClioDB.init, h1, h2]

namespace Engine

/-- Modelled from the spec: one EAV fact of the store, an (entity, attribute,
value) triple (spec glossary and section 3; the store itself is the native
engine, not under src/). -/
structure Fact where
  e : Int
  a : String
  v : PyValue
deriving DecidableEq

/-- Modelled from the spec: a term of a triple pattern — a prefixed variable
or a literal (spec section 4.4). -/
inductive Term where
  | var (x : String)
  | lit (w : PyValue)
deriving DecidableEq

/-- Modelled from the spec: an entity/attribute/value triple pattern with
variables or literals in any position (spec section 4.4). -/
structure Pattern where
  pe : Term
  pa : Term
  pv : Term
deriving DecidableEq

/-- Modelled from the spec: a parsed datalog-style query,
`find <vars> where (<pattern> ...)`: the output variables in order, and the
conjunctive triple patterns (spec section 4.4; parsing happens in the native
engine, not under src/). -/
structure Query where
  findVars : List String
  patterns : List Pattern

/-- A binding environment for query variables. -/
abbrev Env := List (String × PyValue)

/-- Unify one pattern term against one concrete value under an environment. -/
def unify (t : Term) (w : PyValue) (env : Env) : Option Env :=
  match t with
  | .var x =>
    match List.lookup x env with
    | some w0 => if w0 = w then some env else none
    | none => some ((x, w) :: env)
  | .lit w0 => if w0 = w then some env else none

/-- Unify a triple pattern against one fact. -/
def matchPattern (p : Pattern) (f : Fact) (env : Env) : Option Env :=
  match unify p.pe (.pyInt f.e) env with
  | none => none
  | some env1 =>
    match unify p.pa (.pyStr f.a) env1 with
    | none => none
    | some env2 => unify p.pv f.v env2

/-- Modelled from the spec: conjunctive matching — an environment is a
solution iff it satisfies every pattern against some fact of the store
(spec section 4.4). -/
def solve (facts : List Fact) : List Pattern → Env → List Env
  | [], env => [env]
  | p :: ps, env =>
    ((facts.filterMap fun f => matchPattern p f env).map fun env2 =>
      solve facts ps env2).flatten

/-- Modelled from the spec: a Database is an immutable snapshot of the store
as of some transaction point (spec section 3). -/
structure Database where
  facts : List Fact
deriving DecidableEq

/-- Modelled from the spec: run a query against a snapshot — one result row
per solution, one column per find variable in order (spec section 4.4). -/
def runQuery (d : Database) (q : Query) : List (List (Option PyValue)) :=
  (solve d.facts q.patterns []).map fun env =>
    q.findVars.map fun x => List.lookup x env

/-- Modelled from the spec: the engine-side session state — the current store
contents and every Database handle acquired so far (spec sections 3 and
4.5). -/
structure SessionState where
  store : List Fact
  handles : List Database

/-- A client-visible engine operation: acquire a Database snapshot, or submit
a transaction asserting a set of facts. -/
inductive Op where
  | get_db
  | transact (tx : List Fact)

/-- Modelled from the spec: `get_db` hands out a snapshot of the store as of
now; `transact` commits its assertions to the store and touches no
previously acquired snapshot (spec sections 3, 4.3 and 4.5). -/
def step (st : SessionState) : Op → SessionState
  | .get_db => ⟨st.store, st.handles ++ [⟨st.store⟩]⟩
  | .transact tx => ⟨st.store ++ tx, st.handles⟩

/-- Run a sequence of session operations. -/
def runSession (st : SessionState) (ops : List Op) : SessionState :=
  ops.foldl step st

theorem step_handles_append (st : SessionState) (op : Op) :
    ∃ rest, (step st op).handles = st.handles ++ rest := by
  cases op with
  | get_db => exact ⟨[⟨st.store⟩], rfl⟩
  | transact tx => exact ⟨[], (List.append_nil _).symm⟩

theorem runSession_handles_append (st : SessionState) (ops : List Op) :
    ∃ rest, (runSession st ops).handles = st.handles ++ rest := by
  induction ops generalizing st with
  | nil => exact ⟨[], (List.append_nil _).symm⟩
  | cons op ops ih =>
    obtain ⟨r1, h1⟩ := step_handles_append st op
    obtain ⟨r2, h2⟩ := ih (step st op)
    refine ⟨r1 ++ r2, ?_⟩
    show (runSession (step st op) ops).handles = _
    rw [h2, h1, List.append_assoc]

end Engine

/-- The query asked in the snapshot-isolation scenario of the spec:
`find ?v where (?e age ?v)`. -/
def ageQuery : Engine.Query :=
  ⟨["v"], [⟨.var "e", .lit (.pyStr "age"), .var "v"⟩]⟩

/-- Sanity of the engine model: a snapshot holding the fact (1, age, 30) has
the query find it, and the empty snapshot yields no rows — the model is not
vacuous. -/
theorem runQuery_sees_committed_fact :
    Engine.runQuery ⟨[⟨1, "age", .pyInt 30⟩]⟩ ageQuery
      = [[some (PyValue.pyInt 30)]] ∧
    Engine.runQuery (⟨[]⟩ : Engine.Database) ageQuery = [] :=
  ⟨rfl, rfl⟩

/-- Claim C5: under the engine guarantee of the row streaming protocol (every
delivered column count equals the number of find variables of the query —
modelled from the spec, section 4.2), every row the client accumulates has
that same width; and unconditionally, each row list built by the row callback
has length equal to the column count delivered with it. -/
theorem c5_row_width (q : Engine.Query) (exec : QueryExec)
    (hguar : ∀ d ∈ exec.deliveries, d.num_cols = q.findVars.length) :
    (∀ d ∈ exec.deliveries,
      (row_cb d.num_cols d.vals).length = d.num_cols) ∧
    (∀ r ∈ Query.run_exec exec, r.length = q.findVars.length) := by
  constructor
  · intro d _
    simp [row_cb]
  · intro r hr
    simp only [Query.run_exec, List.mem_map] at hr
    obtain ⟨d, hd, rfl⟩ := hr
    simp [row_cb, hguar d hd]

/-- A one-column delivery carrying the string "apple". -/
def exampleDelivery : RowDelivery :=
  ⟨1, fun _ => ⟨VAL_STRING, "apple", 0⟩⟩

/-- A successful one-row query execution. -/
def exampleExec : QueryExec :=
  ⟨[exampleDelivery], 0⟩

/-- The one-variable query `find ?v where (?e word ?v)`. -/
def wordQuery : Engine.Query :=
  ⟨["v"], [⟨.var "e", .lit (.pyStr "word"), .var "v"⟩]⟩

/-- Witness for C5: the row-width theorem at a concrete one-row execution of a
one-variable query. -/
theorem c5_row_width_witness :
    (∀ d ∈ exampleExec.deliveries,
      d.num_cols = wordQuery.findVars.length) ∧
    ((∀ d ∈ exampleExec.deliveries,
        (row_cb d.num_cols d.vals).length = d.num_cols) ∧
     (∀ r ∈ Query.run_exec exampleExec,
        r.length = wordQuery.findVars.length)) :=
  ⟨by decide, c5_row_width wordQuery exampleExec (by decide)⟩

/-- Claim C6: snapshot isolation in the engine model — a Database handle
acquired before a sequence of session operations is left untouched by them
(so it reflects the store only as of its acquisition point), and every query
run against it after those operations returns exactly what it returned at
acquisition time; in particular it never observes facts asserted by a later
transaction. -/
theorem c6_snapshot_isolation (st : Engine.SessionState)
    (ops : List Engine.Op) (i : Nat) (q : Engine.Query)
    (h : i < st.handles.length) :
    (Engine.runSession st ops).handles.getD i ⟨[]⟩
      = st.handles.getD i ⟨[]⟩ ∧
    Engine.runQuery ((Engine.runSession st ops).handles.getD i ⟨[]⟩) q
      = Engine.runQuery (st.handles.getD i ⟨[]⟩) q := by
  obtain ⟨rest, hr⟩ := Engine.runSession_handles_append st ops
  have hg : (Engine.runSession st ops).handles.getD i ⟨[]⟩
      = st.handles.getD i ⟨[]⟩ := by
    rw [hr]
    exact List.getD_append _ _ _ _ h
  exact ⟨hg, by rw [hg]⟩

/-- The session of the snapshot-isolation scenario in the spec: a store with
no facts and one snapshot already acquired from it. -/
def exampleState : Engine.SessionState :=
  ⟨[], [⟨[]⟩]⟩

/-- The later transaction of the scenario: assert (1, age, 30). -/
def exampleOps : List Engine.Op :=
  [.transact [⟨1, "age", .pyInt 30⟩]]

/-- Witness for C6: the spec scenario — a handle acquired from the empty
store, then a transaction asserting (1, age, 30); the old handle and its query
results are unchanged. -/
theorem c6_snapshot_isolation_witness :
    0 < exampleState.handles.length ∧
    ((Engine.runSession exampleState exampleOps).handles.getD 0 ⟨[]⟩
        = exampleState.handles.getD 0 ⟨[]⟩ ∧
     Engine.runQuery
        ((Engine.runSession exampleState exampleOps).handles.getD 0 ⟨[]⟩)
        ageQuery
      = Engine.runQuery (exampleState.handles.getD 0 ⟨[]⟩) ageQuery) :=
  ⟨by decide,
   c6_snapshot_isolation exampleState exampleOps 0 ageQuery (by decide)⟩

end Cliodb
